import Mathlib

/-!
Shallow embedding of the keyword-based ticket triage engines of the
Unified-IT-Support repository:

* `TicketTriage`  — backend/services/ticket_triage.py (`TicketTriageService`)
* `AutoTriage`    — backend/services/auto_triage.py (`AutoTriageService`)
* `SimpleML`      — backend/services/simple_ml_service.py (`SimpleMLService`)

Python strings are modelled as Lean `String`; Python's `needle in haystack`
substring test is `pyContains`, and `str.lower()` is `pyLower` (ASCII
lowercasing, as in the source's keyword tables which are all ASCII).
Python floats in the confidence formulas are modelled as rationals `ℚ`;
every constant involved (0.5, 0.3, 0.1, 0.05, ...) and every comparison in
the claims is exact at this granularity, and the final clamps are computed
the same way on floats and on rationals.
-/

/-- Boolean test: `pat` is a prefix of `l` (character lists). -/
def listIsPrefix : List Char → List Char → Bool
  | [], _ => true
  | _ :: _, [] => false
  | a :: as, b :: bs => a == b && listIsPrefix as bs

/-- Boolean test: `pat` occurs as a contiguous sublist of `l`. -/
def listHasSub (pat : List Char) : List Char → Bool
  | [] => listIsPrefix pat []
  | b :: bs => listIsPrefix pat (b :: bs) || listHasSub pat bs

/-- Python's `pat in s` substring containment on strings. -/
def pyContains (s pat : String) : Bool :=
  listHasSub pat.toList s.toList

/-- Python's `s.lower()` (ASCII case folding, via `Char.toLower`). -/
def pyLower (s : String) : String :=
  String.mk (s.toList.map Char.toLower)

/-- Python's two-argument `min` on numbers (returns the first argument on a
tie, and kernel-reduces, unlike the lattice `⊓` on `ℚ`). -/
def pyMin (a b : ℚ) : ℚ := if b < a then b else a

/-- Python's two-argument `max` on numbers (returns the first argument on a
tie). -/
def pyMax (a b : ℚ) : ℚ := if a < b then b else a

/-- Python's `max(pairs, key=value)` seeded with `b`: later elements replace
the current best only when strictly greater, so the first maximal element of
`b :: l` survives (CPython dict iteration order = insertion order). -/
def pyMaxAux (b : α × Nat) : List (α × Nat) → α × Nat
  | [] => b
  | p :: rest => pyMaxAux (if p.2 > b.2 then p else b) rest

/-- Python's `max(dict, key=dict.get)` over an association list. -/
def pyMaxByVal : List (α × Nat) → Option (α × Nat)
  | [] => none
  | p :: rest => some (pyMaxAux p rest)

/-- Largest value occurring in an association list (0 when empty). -/
def listMaxVal : List (α × Nat) → Nat
  | [] => 0
  | p :: rest => Nat.max p.2 (listMaxVal rest)

/-- The spec's tie-break rule, "first element attaining the maximal value":
the candidate that `pyMaxByVal` is claimed to select. -/
def specFirstMax (l : List (α × Nat)) : Option (α × Nat) :=
  l.find? (fun p => p.2 == listMaxVal l)

namespace TicketTriage

/-- `TicketPriority` of backend/database/models/ticket.py. -/
inductive Priority
  | low | medium | high | critical
deriving DecidableEq, Repr

/-- `TicketCategory` of backend/database/models/ticket.py. -/
inductive Category
  | system_down | performance_issue | password_reset
  | software_installation | hardware_issue | network_issue | other
deriving DecidableEq, BEq, Repr

/-- `TicketTriageService.priority_keywords` (ticket_triage.py, `__init__`). -/
def priorityKeywords : Priority → List String
  | .critical =>
      ["down", "outage", "critical", "emergency", "urgent", "broken",
       "not working", "failed", "error", "crash", "fatal"]
  | .high =>
      ["slow", "performance", "issue", "problem", "bug", "not responding",
       "timeout", "connection", "access", "login", "authentication"]
  | .medium =>
      ["request", "help", "question", "information", "guidance",
       "how to", "tutorial", "documentation"]
  | .low =>
      ["password", "reset", "change", "update", "modify", "preference",
       "setting", "configuration"]

/-- `TicketTriageService.category_keywords`, in declaration order
(`TicketCategory.OTHER` has no entry in the source dictionary). -/
def categoryKeywords : List (Category × List String) :=
  [(.system_down,
      ["down", "outage", "offline", "unavailable", "not accessible",
       "server down", "service down", "system down"]),
   (.performance_issue,
      ["slow", "performance", "lag", "timeout", "response time",
       "bottleneck", "optimization"]),
   (.password_reset,
      ["password", "reset", "forgot", "locked", "unlock", "change password"]),
   (.software_installation,
      ["install", "installation", "setup", "configure", "deploy",
       "software", "application", "program"]),
   (.hardware_issue,
      ["hardware", "device", "printer", "scanner", "monitor",
       "keyboard", "mouse", "physical"]),
   (.network_issue,
      ["network", "connection", "wifi", "ethernet", "internet",
       "connectivity", "dns", "ip", "vpn"])]

/-- Does some keyword of priority `p` occur in `content`? (the loop bodies of
`_determine_priority` return the same priority for every keyword of a list,
so the loop is exactly an existence test). -/
def matchesPriority (content : String) (p : Priority) : Bool :=
  (priorityKeywords p).any (fun kw => pyContains content kw)

/-- `TicketTriageService._determine_priority`: CRITICAL, then HIGH, then LOW
keywords are tested in this order; the MEDIUM keyword list is never consulted
and MEDIUM is the fall-through default. -/
def determinePriority (content : String) : Priority :=
  if matchesPriority content .critical then .critical
  else if matchesPriority content .high then .high
  else if matchesPriority content .low then .low
  else .medium

/-- Number of keywords of `kws` occurring in `content` (the score loop of
`_determine_category`). -/
def catScore (content : String) (kws : List String) : Nat :=
  kws.countP (fun kw => pyContains content kw)

/-- `TicketTriageService._determine_category`: score every category, take
Python's `max` over the score dict, return it when positive, else OTHER. -/
def determineCategory (content : String) : Category :=
  let scores := categoryKeywords.map (fun p => (p.1, catScore content p.2))
  match pyMaxByVal scores with
  | some best => if 0 < best.2 then best.1 else .other
  | none => .other

/-- `TicketTriageService._calculate_confidence`. -/
def calculateConfidence (content : String) (priority : Priority)
    (category : Category) : ℚ :=
  let pm := (priorityKeywords priority).countP (fun kw => pyContains content kw)
  let cm := ((categoryKeywords.lookup category).getD []).countP
      (fun kw => pyContains content kw)
  let conf1 : ℚ := 1/2
  let conf2 := if 0 < pm then conf1 + pyMin (3/10) ((pm : ℚ) * (1/10)) else conf1
  let conf3 := if 0 < cm then conf2 + pyMin (1/5) ((cm : ℚ) * (1/20)) else conf2
  pyMin 1 (pyMax 0 conf3)

/-- Category selection as the specification words it: tally every category's
keyword matches, pick the highest count with ties broken by declaration order
(first declared wins), and return OTHER when every category scores zero.
Written from the spec's words, to be compared with `determineCategory`. -/
def specCategorySelection (content : String) : Category :=
  let scores := categoryKeywords.map (fun p => (p.1, catScore content p.2))
  if listMaxVal scores = 0 then Category.other
  else
    match specFirstMax scores with
    | some p => p.1
    | none => Category.other

/-- Result record of `TicketTriageService.triage_ticket`. -/
structure Result where
  priority : Priority
  category : Category
  confidence_score : ℚ
deriving DecidableEq, Repr

/-- `TicketTriageService.triage_ticket`. -/
def triageTicket (title description : String) : Result :=
  let content := pyLower (title ++ " " ++ description)
  let priority := determinePriority content
  let category := determineCategory content
  { priority := priority
    category := category
    confidence_score := calculateConfidence content priority category }

end TicketTriage

namespace AutoTriage

/-- `AutoTriageService.priority_keywords` (auto_triage.py, `__init__`),
keyed by the priority strings used in that file. -/
def priorityKeywords : List (String × List String) :=
  [("CRITICAL",
      ["down", "outage", "critical", "urgent", "emergency", "fatal",
       "system down", "service unavailable", "complete failure",
       "security breach", "data loss", "cannot access"]),
   ("HIGH",
      ["slow", "performance", "timeout", "error", "failed",
       "not working", "broken", "issue", "problem", "bug",
       "login failed", "access denied", "connection error"]),
   ("MEDIUM",
      ["question", "help", "how to", "tutorial", "guide",
       "feature request", "enhancement", "improvement",
       "configuration", "setup", "installation"]),
   ("LOW",
      ["information", "general", "inquiry", "question",
       "documentation", "training", "best practice"])]

/-- `AutoTriageService.category_keywords`, in declaration order
(`'General'` carries the empty list and is skipped by the category loop). -/
def categoryKeywords : List (String × List String) :=
  [("Network", ["network", "connection", "internet", "wifi", "vpn", "dns", "ip"]),
   ("Hardware", ["computer", "laptop", "desktop", "printer", "scanner", "hardware"]),
   ("Software", ["software", "application", "program", "install", "update", "license"]),
   ("Email", ["email", "outlook", "mail", "smtp", "imap", "exchange"]),
   ("Security", ["password", "login", "authentication", "security", "access", "permission"]),
   ("Account", ["account", "user", "profile", "registration", "signup", "login"]),
   ("Database", ["database", "db", "sql", "query", "data", "backup"]),
   ("General", [])]

/-- `AutoTriageService.sla_times` (hours per priority). -/
def slaTimes : List (String × Nat) :=
  [("CRITICAL", 1), ("HIGH", 4), ("MEDIUM", 24), ("LOW", 72)]

/-- Does some keyword of the list stored under `p` occur in `content`? -/
def matchesPriority (content p : String) : Bool :=
  ((priorityKeywords.lookup p).getD []).any (fun kw => pyContains content kw)

/-- `AutoTriageService._determine_priority`: CRITICAL, then HIGH, then MEDIUM
keywords are tested in this order; the LOW keyword list is never consulted and
`'LOW'` is the fall-through default. -/
def determinePriority (content : String) : String :=
  let contentLower := pyLower content
  if matchesPriority contentLower "CRITICAL" then "CRITICAL"
  else if matchesPriority contentLower "HIGH" then "HIGH"
  else if matchesPriority contentLower "MEDIUM" then "MEDIUM"
  else "LOW"

/-- The category loop of `AutoTriageService._determine_category`: walk the
table in declaration order, skip `'General'`, and return the first category
one of whose keywords occurs in the (lowercased) content. -/
def determineCategoryLoop (contentLower : String) :
    List (String × List String) → String
  | [] => "General"
  | (c, kws) :: rest =>
      if c == "General" then determineCategoryLoop contentLower rest
      else if kws.any (fun kw => pyContains contentLower kw) then c
      else determineCategoryLoop contentLower rest

/-- `AutoTriageService._determine_category`. -/
def determineCategory (content : String) : String :=
  determineCategoryLoop (pyLower content) categoryKeywords

/-- The category rule of auto_triage.py as a single scan: the first declared
non-General category one of whose keywords occurs in the lowercased content,
General when none matches.  Restates `determineCategoryLoop` without the
explicit loop, for the amended claim C5. -/
def specFirstMatchCategory (content : String) : String :=
  match categoryKeywords.find?
      (fun p => p.1 != "General" &&
        p.2.any (fun kw => pyContains (pyLower content) kw)) with
  | some p => p.1
  | none => "General"

/-- The escalation keyword list of `AutoTriageService._determine_escalation`. -/
def escalationKeywords : List String :=
  ["escalate", "manager", "supervisor", "urgent", "immediate",
   "asap", "right now", "cannot wait"]

/-- `AutoTriageService._determine_escalation`: 1 on an escalation keyword or a
CRITICAL priority, 0 otherwise (the `HIGH` branch of the source also yields 0). -/
def determineEscalation (content priority : String) : Nat :=
  let contentLower := pyLower content
  if escalationKeywords.any (fun kw => pyContains contentLower kw) then 1
  else if priority == "CRITICAL" then 1
  else if priority == "HIGH" then 0
  else 0

/-- Result record of `AutoTriageService.triage_ticket`.  `sla_deadline` is
`now + hours` with time measured in whole hours from an arbitrary epoch
(`datetime.now() + timedelta(hours=h)` in the source); `assigned_to` is the
outcome of the database-backed `_auto_assign`, which this pure model receives
as a parameter. -/
structure Result where
  priority : String
  category : String
  sla_deadline : Nat
  escalation_level : Nat
  assigned_to : Option String
  auto_triaged : Bool
deriving DecidableEq, Repr

/-- The `try` body of `AutoTriageService.triage_ticket`.  The SLA table is the
service configuration (`self.sla_times`); the indexing `self.sla_times[priority]`
raises `KeyError` — modelled as `Except.error` — when the table lacks the
resolved priority. -/
def triageBody (sla : List (String × Nat)) (now : Nat) (assigned : Option String)
    (title description : String) : Except Unit Result :=
  let content := pyLower title ++ " " ++ pyLower description
  let priority := determinePriority content
  let category := determineCategory content
  match sla.lookup priority with
  | none => Except.error ()
  | some h =>
      Except.ok
        { priority := priority
          category := category
          sla_deadline := now + h
          escalation_level := determineEscalation content priority
          assigned_to := assigned
          auto_triaged := true }

/-- `AutoTriageService.triage_ticket`: the `except` handler converts any
failure of the body into the documented default result. -/
def triageTicket (sla : List (String × Nat)) (now : Nat) (assigned : Option String)
    (title description : String) : Result :=
  match triageBody sla now assigned title description with
  | Except.ok r => r
  | Except.error _ =>
      { priority := "MEDIUM"
        category := "General"
        sla_deadline := now + 24
        escalation_level := 0
        assigned_to := none
        auto_triaged := false }

end AutoTriage

namespace SimpleML

/-- `SimpleMLService.category_keywords` (simple_ml_service.py, `__init__`). -/
def categoryKeywords : List (String × List String) :=
  [("performance_issue",
      ["slow", "performance", "lag", "timeout", "cpu", "memory", "disk",
       "bottleneck", "latency", "response time", "speed", "overload"]),
   ("bug",
      ["error", "bug", "crash", "broken", "malfunction", "defect", "issue",
       "problem", "fault", "failure", "exception", "wrong", "incorrect"]),
   ("feature_request",
      ["feature", "enhancement", "improvement", "add", "new", "request",
       "suggestion", "capability", "functionality", "tool", "option"]),
   ("incident",
      ["down", "outage", "emergency", "critical", "urgent", "system down",
       "service unavailable", "production", "major", "severe", "blocking"])]

/-- `SimpleMLService.priority_keywords`, in declaration order
(`'critical'` is the first-declared key). -/
def priorityKeywords : List (String × List String) :=
  [("critical",
      ["critical", "emergency", "urgent", "down", "outage", "production",
       "blocking", "severe", "major", "asap", "immediately"]),
   ("high",
      ["high", "important", "priority", "soon", "quickly", "significant",
       "affecting", "impact", "business"]),
   ("medium",
      ["medium", "normal", "standard", "regular", "usual", "typical"]),
   ("low",
      ["low", "minor", "small", "trivial", "cosmetic", "nice to have",
       "when possible", "eventually"])]

/-- Python's `round(q, ndigits)` on the rational model.  (CPython rounds
half-to-even; this model rounds half away from zero.  The two differ only
when `q * 10^ndigits` is an exact half-integer, which never happens for the
confidence values rounded here — they are multiples of 1/20.) -/
def pyRound (ndigits : Nat) (q : ℚ) : ℚ :=
  ((round (q * 10 ^ ndigits) : ℤ) : ℚ) / 10 ^ ndigits

/-- Result record of `SimpleMLService.classify_ticket`. -/
structure Result where
  category : String
  category_confidence : ℚ
  priority : String
  priority_confidence : ℚ
  predicted_resolution_time_hours : ℚ
  urgency_score : Nat
  auto_categorized : Bool
  ml_confidence : ℚ
deriving DecidableEq, Repr

/-- `SimpleMLService.classify_ticket`.  `r` is the value drawn by
`random.uniform(-1, 3)` for the resolution-time jitter, received as a
parameter by this pure model. -/
def classifyTicket (title description : String) (r : ℚ) : Result :=
  let combined := pyLower (title ++ " " ++ description)
  let categoryScores := categoryKeywords.map
      (fun p => (p.1, p.2.countP (fun kw => pyContains combined kw)))
  let predictedCategory := (pyMaxByVal categoryScores).elim "other" (fun p => p.1)
  let categoryConfidence :=
      pyMin (9/10) (pyMax (3/10)
        (((categoryScores.lookup predictedCategory).getD 0 : ℚ) * (1/5)))
  let priorityScores := priorityKeywords.map
      (fun p => (p.1, p.2.countP (fun kw => pyContains combined kw)))
  let predictedPriority := (pyMaxByVal priorityScores).elim "medium" (fun p => p.1)
  let priorityConfidence :=
      pyMin (9/10) (pyMax (3/10)
        (((priorityScores.lookup predictedPriority).getD 0 : ℚ) * (1/4)))
  let baseTime : List (String × ℚ) :=
      [("critical", 2), ("high", 6), ("medium", 12), ("low", 24)]
  let resolutionTime0 := (baseTime.lookup predictedPriority).getD 8
  let resolutionTime1 := resolutionTime0 + r
  let resolutionTime2 := pyMax 1 (pyMin 48 resolutionTime1)
  { category := predictedCategory
    category_confidence := pyRound 3 categoryConfidence
    priority := predictedPriority
    priority_confidence := pyRound 3 priorityConfidence
    predicted_resolution_time_hours := pyRound 1 resolutionTime2
    urgency_score := (priorityScores.lookup predictedPriority).getD 0
    auto_categorized := true
    ml_confidence := pyRound 3 ((categoryConfidence + priorityConfidence) / 2) }

end SimpleML

theorem pyMaxAux_of_le (l : List (α × Nat)) (b : α × Nat)
    (hb : ∀ p ∈ l, p.2 ≤ b.2) : pyMaxAux b l = b := by
  induction l with
  | nil => rfl
  | cons p rest ih =>
      have hp : p.2 ≤ b.2 := hb p (List.mem_cons_self _ _)
      simp only [pyMaxAux, gt_iff_lt]
      rw [if_neg (by omega)]
      exact ih (fun q hq => hb q (List.mem_cons_of_mem _ hq))

theorem pyMaxAux_find (l : List (α × Nat)) (b : α × Nat) :
    (b :: l).find? (fun p => p.2 == Nat.max b.2 (listMaxVal l)) =
      some (pyMaxAux b l) := by
  induction l generalizing b with
  | nil =>
      simp [List.find?, listMaxVal, pyMaxAux, Nat.max_eq_left (Nat.zero_le _)]
  | cons p rest ih =>
      by_cases hpb : b.2 < p.2
      · have hM : Nat.max b.2 (listMaxVal (p :: rest)) =
            Nat.max p.2 (listMaxVal rest) := by
          simp only [listMaxVal]
          exact Nat.max_eq_right (le_trans (le_of_lt hpb) (Nat.le_max_left _ _))
        have hbM : (b.2 == Nat.max b.2 (listMaxVal (p :: rest))) = false := by
          rw [hM]
          have : b.2 < Nat.max p.2 (listMaxVal rest) :=
            lt_of_lt_of_le hpb (Nat.le_max_left _ _)
          simp [Nat.ne_of_lt this]
        have hstep : pyMaxAux b (p :: rest) = pyMaxAux p rest := by
          simp only [pyMaxAux, gt_iff_lt, if_pos hpb]
        rw [hstep, List.find?_cons, hbM]
        rw [show (fun q : α × Nat => q.2 == Nat.max b.2 (listMaxVal (p :: rest))) =
            (fun q : α × Nat => q.2 == Nat.max p.2 (listMaxVal rest)) from by
          funext q; rw [hM]]
        exact ih p
      · have hpb' : p.2 ≤ b.2 := le_of_not_lt hpb
        have hM : Nat.max b.2 (listMaxVal (p :: rest)) =
            Nat.max b.2 (listMaxVal rest) := by
          simp only [listMaxVal, ← Nat.max_assoc]
          rw [Nat.max_eq_left hpb']
        have hstep : pyMaxAux b (p :: rest) = pyMaxAux b rest := by
          simp only [pyMaxAux, gt_iff_lt, if_neg hpb]
        have ihb := ih b
        by_cases hb : b.2 = Nat.max b.2 (listMaxVal rest)
        · rw [hstep, List.find?_cons, show (b.2 == Nat.max b.2 (listMaxVal (p :: rest))) = true
            from by rw [hM]; exact beq_iff_eq.mpr hb]
          rw [List.find?_cons, show (b.2 == Nat.max b.2 (listMaxVal rest)) = true
            from beq_iff_eq.mpr hb] at ihb
          exact ihb
        · have hbfalse : (b.2 == Nat.max b.2 (listMaxVal rest)) = false := by simp [hb]
          have hpfalse : (p.2 == Nat.max b.2 (listMaxVal rest)) = false := by
            have hble : b.2 ≤ Nat.max b.2 (listMaxVal rest) := Nat.le_max_left _ _
            have : p.2 ≠ Nat.max b.2 (listMaxVal rest) := by omega
            simp [this]
          rw [hstep, List.find?_cons, show (b.2 == Nat.max b.2 (listMaxVal (p :: rest))) = false
            from by rw [hM]; exact hbfalse]
          rw [List.find?_cons, show (p.2 == Nat.max b.2 (listMaxVal (p :: rest))) = false
            from by rw [hM]; exact hpfalse]
          rw [List.find?_cons, hbfalse] at ihb
          rw [show (fun q : α × Nat => q.2 == Nat.max b.2 (listMaxVal (p :: rest))) =
              (fun q : α × Nat => q.2 == Nat.max b.2 (listMaxVal rest)) from by
            funext q; rw [hM]]
          exact ihb

/-- Python's first-strict-max scan agrees with the spec's "first element whose
value is the maximum" rule. -/
theorem pyMaxByVal_eq_specFirstMax (l : List (α × Nat)) :
    pyMaxByVal l = specFirstMax l := by
  cases l with
  | nil => rfl
  | cons b rest =>
      simp only [pyMaxByVal, specFirstMax, listMaxVal]
      exact (pyMaxAux_find rest b).symm

/-- On an all-zero score table Python's `max` returns the first key. -/
theorem pyMaxByVal_all_zero (l : List (α × Nat)) (h : ∀ p ∈ l, p.2 = 0) :
    pyMaxByVal l = l.head? := by
  cases l with
  | nil => rfl
  | cons b rest =>
      simp only [pyMaxByVal, List.head?]
      rw [pyMaxAux_of_le rest b]
      intro q hq
      rw [h q (List.mem_cons_of_mem _ hq), h b (List.mem_cons_self _ _)]

/-- The "return the max if positive, else OTHER" shape of
`_determine_category` agrees with the spec's "highest count, first declared
wins, OTHER if all zero" rule. -/
theorem ticket_determineCategory_eq_spec (content : String) :
    TicketTriage.determineCategory content =
      TicketTriage.specCategorySelection content := by
  simp only [TicketTriage.determineCategory, TicketTriage.specCategorySelection]
  generalize (List.map (fun p => (p.1, TicketTriage.catScore content p.2))
    TicketTriage.categoryKeywords) = scores
  cases scores with
  | nil => simp [pyMaxByVal, specFirstMax, listMaxVal]
  | cons b rest =>
      have hfind := pyMaxAux_find rest b
      have hpred := List.find?_some hfind
      have hval : (pyMaxAux b rest).2 = Nat.max b.2 (listMaxVal rest) := by
        simpa using hpred
      simp only [pyMaxByVal, specFirstMax, listMaxVal, hfind]
      rw [hval]
      by_cases hM : Nat.max b.2 (listMaxVal rest) = 0
      · rw [hM]; simp
      · rw [if_neg hM, if_pos (Nat.pos_of_ne_zero hM)]

theorem auto_categoryLoop_eq_find (contentLower : String)
    (l : List (String × List String)) :
    AutoTriage.determineCategoryLoop contentLower l =
      (match l.find?
          (fun p => p.1 != "General" &&
            p.2.any (fun kw => pyContains contentLower kw)) with
       | some p => p.1
       | none => "General") := by
  induction l with
  | nil => rfl
  | cons p rest ih =>
      by_cases hg : p.1 == "General"
      · simp only [AutoTriage.determineCategoryLoop, if_pos hg, List.find?_cons,
          bne, hg, Bool.not_true, Bool.false_and]
        exact ih
      · have hg' : (p.1 != "General") = true := by simp [bne, hg]
        by_cases ha : p.2.any (fun kw => pyContains contentLower kw)
        · simp only [AutoTriage.determineCategoryLoop, if_neg hg, if_pos ha,
            List.find?_cons, hg', ha, Bool.true_and, if_true]
        · have ha' : p.2.any (fun kw => pyContains contentLower kw) = false := by
            simpa using ha
          simp only [AutoTriage.determineCategoryLoop, if_neg hg, ha',
            Bool.false_eq_true, if_false, List.find?_cons, hg', Bool.true_and]
          exact ih

theorem auto_determineCategory_eq_spec (content : String) :
    AutoTriage.determineCategory content =
      AutoTriage.specFirstMatchCategory content := by
  simp only [AutoTriage.determineCategory, AutoTriage.specFirstMatchCategory]
  exact auto_categoryLoop_eq_find _ _

/-- On the service's own SLA table the `try` body of `triage_ticket` always
succeeds and produces the fields computed by the helper functions. -/
theorem auto_triage_eval (now : Nat) (assigned : Option String)
    (title description : String) :
    ∃ hrs : Nat,
      List.lookup
          (AutoTriage.determinePriority (pyLower title ++ " " ++ pyLower description))
          AutoTriage.slaTimes = some hrs ∧
      AutoTriage.triageTicket AutoTriage.slaTimes now assigned title description =
        { priority :=
            AutoTriage.determinePriority (pyLower title ++ " " ++ pyLower description)
          category :=
            AutoTriage.determineCategory (pyLower title ++ " " ++ pyLower description)
          sla_deadline := now + hrs
          escalation_level :=
            AutoTriage.determineEscalation
              (pyLower title ++ " " ++ pyLower description)
              (AutoTriage.determinePriority (pyLower title ++ " " ++ pyLower description))
          assigned_to := assigned
          auto_triaged := true } := by
  have hcases :
      AutoTriage.determinePriority (pyLower title ++ " " ++ pyLower description) = "CRITICAL" ∨
      AutoTriage.determinePriority (pyLower title ++ " " ++ pyLower description) = "HIGH" ∨
      AutoTriage.determinePriority (pyLower title ++ " " ++ pyLower description) = "MEDIUM" ∨
      AutoTriage.determinePriority (pyLower title ++ " " ++ pyLower description) = "LOW" := by
    simp only [AutoTriage.determinePriority]
    split_ifs <;> simp
  have hgo :
      ∀ hrs : Nat,
        List.lookup
            (AutoTriage.determinePriority (pyLower title ++ " " ++ pyLower description))
            AutoTriage.slaTimes = some hrs →
        AutoTriage.triageTicket AutoTriage.slaTimes now assigned title description =
          { priority :=
              AutoTriage.determinePriority (pyLower title ++ " " ++ pyLower description)
            category :=
              AutoTriage.determineCategory (pyLower title ++ " " ++ pyLower description)
            sla_deadline := now + hrs
            escalation_level :=
              AutoTriage.determineEscalation
                (pyLower title ++ " " ++ pyLower description)
                (AutoTriage.determinePriority (pyLower title ++ " " ++ pyLower description))
            assigned_to := assigned
            auto_triaged := true } := by
    intro hrs hlook
    simp only [AutoTriage.triageTicket, AutoTriage.triageBody, hlook]
  rcases hcases with h | h | h | h <;>
    [exact ⟨1, by rw [h]; decide, hgo 1 (by rw [h]; decide)⟩;
     exact ⟨4, by rw [h]; decide, hgo 4 (by rw [h]; decide)⟩;
     exact ⟨24, by rw [h]; decide, hgo 24 (by rw [h]; decide)⟩;
     exact ⟨72, by rw [h]; decide, hgo 72 (by rw [h]; decide)⟩]

example : SimpleML.pyRound 3 (3/10) = 3/10 := by norm_num [SimpleML.pyRound]

example : (SimpleML.classifyTicket "" "" 0).priority = "critical" := by decide

example : AutoTriage.determinePriority " " = "LOW" := by decide

example : AutoTriage.determinePriority "zzz" = "LOW" := by decide

example : AutoTriage.determineCategory "network vpn dns" = "Network" := by decide

example : AutoTriage.determineCategory "printer scanner network" = "Network" := by
  decide

example : AutoTriage.determinePriority "urgent slow" = "CRITICAL" := by decide

example : AutoTriage.determinePriority "slow asap" = "HIGH" := by decide

example : AutoTriage.determineEscalation "slow asap" "HIGH" = 1 := by decide

example : AutoTriage.triageTicket AutoTriage.slaTimes 5 none "" "" =
    { priority := "LOW", category := "General", sla_deadline := 5 + 72,
      escalation_level := 0, assigned_to := none, auto_triaged := true } := by
  decide

example : AutoTriage.triageTicket [] 0 none "" "" =
    { priority := "MEDIUM", category := "General", sla_deadline := 0 + 24,
      escalation_level := 0, assigned_to := none, auto_triaged := false } := by
  decide

example : TicketTriage.triageTicket "" "" =
    { priority := .medium, category := .other, confidence_score := 1/2 } := by
  have hp : TicketTriage.determinePriority (pyLower ("" ++ " " ++ "")) = .medium := by decide
  have hc : TicketTriage.determineCategory (pyLower ("" ++ " " ++ "")) = .other := by decide
  have hconf : TicketTriage.calculateConfidence (pyLower ("" ++ " " ++ ""))
      .medium .other = 1/2 := by
    have h3 : (TicketTriage.priorityKeywords .medium).countP
        (fun kw => pyContains (pyLower ("" ++ " " ++ "")) kw) = 0 := by decide
    have h4 : ((TicketTriage.categoryKeywords.lookup TicketTriage.Category.other).getD
        []).countP (fun kw => pyContains (pyLower ("" ++ " " ++ "")) kw) = 0 := by decide
    simp only [TicketTriage.calculateConfidence, h3, h4]
    norm_num [pyMin, pyMax]
  simp only [TicketTriage.triageTicket]
  rw [hp, hc, hconf]

example : TicketTriage.determinePriority "help password" = .low := by decide

example : TicketTriage.determineCategory "network vpn dns" = .network_issue := by
  decide

/-- C1: For every input whose lowercased concatenation of title and
description contains at least one keyword from the CRITICAL keyword list,
both triage implementations return priority CRITICAL, regardless of which
HIGH, MEDIUM, or LOW keywords are also present (CRITICAL is tested first). -/
theorem critical_keyword_forces_critical_priority
    (title description : String) (now : Nat) (assigned : Option String) :
    ((∃ kw ∈ TicketTriage.priorityKeywords TicketTriage.Priority.critical,
        pyContains (pyLower (title ++ " " ++ description)) kw = true) →
      (TicketTriage.triageTicket title description).priority =
        TicketTriage.Priority.critical) ∧
    ((∃ kw ∈ (AutoTriage.priorityKeywords.lookup "CRITICAL").getD [],
        pyContains (pyLower (pyLower title ++ " " ++ pyLower description)) kw = true) →
      (AutoTriage.triageTicket AutoTriage.slaTimes now assigned
          title description).priority = "CRITICAL") := by
  constructor
  · rintro ⟨kw, hmem, hkw⟩
    have hmatch : TicketTriage.matchesPriority (pyLower (title ++ " " ++ description))
        TicketTriage.Priority.critical = true := by
      simp only [TicketTriage.matchesPriority, List.any_eq_true]
      exact ⟨kw, hmem, hkw⟩
    simp only [TicketTriage.triageTicket, TicketTriage.determinePriority, hmatch,
      if_true]
  · rintro ⟨kw, hmem, hkw⟩
    have hmatch : AutoTriage.matchesPriority
        (pyLower (pyLower title ++ " " ++ pyLower description)) "CRITICAL" = true := by
      simp only [AutoTriage.matchesPriority, List.any_eq_true]
      exact ⟨kw, hmem, hkw⟩
    have hp : AutoTriage.determinePriority (pyLower title ++ " " ++ pyLower description) =
        "CRITICAL" := by
      simp only [AutoTriage.determinePriority, hmatch, if_true]
    obtain ⟨hrs, hlook, heq⟩ := auto_triage_eval now assigned title description
    rw [heq]
    exact hp

/-- Witness for `critical_keyword_forces_critical_priority`: the input
"System down" / "help password reset" contains the CRITICAL keyword "down"
together with MEDIUM ("help") and LOW ("password") keywords, and both
implementations classify it CRITICAL. -/
theorem critical_keyword_forces_critical_priority_witness :
    (TicketTriage.triageTicket "System down" "help password reset").priority =
      TicketTriage.Priority.critical ∧
    (AutoTriage.triageTicket AutoTriage.slaTimes 0 none
        "System down" "help password reset").priority = "CRITICAL" :=
  ⟨(critical_keyword_forces_critical_priority "System down" "help password reset"
      0 none).1 ⟨"down", by decide, by decide⟩,
   (critical_keyword_forces_critical_priority "System down" "help password reset"
      0 none).2 ⟨"down", by decide, by decide⟩⟩

/-- C2 counterexample: the claim says the MEDIUM keyword set is tested before
the LOW set and that the no-signal default is MEDIUM.  But ticket_triage.py
classifies "help password" (which contains the MEDIUM keyword "help") as LOW,
because it tests the LOW set and never tests the MEDIUM set; and auto_triage.py
classifies the keyword-free input "zzz" as LOW, because its no-signal default
is LOW, not MEDIUM. -/
theorem medium_before_low_counterexample :
    TicketTriage.determinePriority "help password" = TicketTriage.Priority.low ∧
    TicketTriage.matchesPriority "help password" TicketTriage.Priority.medium = true ∧
    AutoTriage.determinePriority "zzz" = "LOW" ∧
    (["CRITICAL", "HIGH", "MEDIUM", "LOW"].all
      (fun p => !AutoTriage.matchesPriority "zzz" p)) = true := by
  decide

/-- C2 amended: when no CRITICAL or HIGH keyword matches, ticket_triage.py
tests the LOW keyword set next (the MEDIUM set is never tested) and falls
through to MEDIUM only when no set matches; auto_triage.py tests the MEDIUM
set next and falls through to LOW when no set matches. -/
theorem priority_fallback_order (content : String) :
    (TicketTriage.matchesPriority content TicketTriage.Priority.critical = false →
     TicketTriage.matchesPriority content TicketTriage.Priority.high = false →
     (TicketTriage.matchesPriority content TicketTriage.Priority.low = true →
        TicketTriage.determinePriority content = TicketTriage.Priority.low) ∧
     (TicketTriage.matchesPriority content TicketTriage.Priority.low = false →
        TicketTriage.determinePriority content = TicketTriage.Priority.medium)) ∧
    (AutoTriage.matchesPriority (pyLower content) "CRITICAL" = false →
     AutoTriage.matchesPriority (pyLower content) "HIGH" = false →
     (AutoTriage.matchesPriority (pyLower content) "MEDIUM" = true →
        AutoTriage.determinePriority content = "MEDIUM") ∧
     (AutoTriage.matchesPriority (pyLower content) "MEDIUM" = false →
        AutoTriage.determinePriority content = "LOW")) := by
  refine ⟨fun h1 h2 => ⟨fun h3 => ?_, fun h3 => ?_⟩,
          fun h1 h2 => ⟨fun h3 => ?_, fun h3 => ?_⟩⟩ <;>
    simp [TicketTriage.determinePriority, AutoTriage.determinePriority, h1, h2, h3]

/-- Witness for `priority_fallback_order` at concrete inputs: "help password"
(MEDIUM+LOW keywords) goes to LOW in ticket_triage.py, keyword-free "zzz"
defaults to MEDIUM there; "question" (MEDIUM keyword) goes to MEDIUM in
auto_triage.py and keyword-free "zzz" defaults to LOW there. -/
theorem priority_fallback_order_witness :
    TicketTriage.determinePriority "help password" = TicketTriage.Priority.low ∧
    TicketTriage.determinePriority "zzz" = TicketTriage.Priority.medium ∧
    AutoTriage.determinePriority "question" = "MEDIUM" ∧
    AutoTriage.determinePriority "zzz" = "LOW" :=
  ⟨((priority_fallback_order "help password").1 (by decide) (by decide)).1 (by decide),
   ((priority_fallback_order "zzz").1 (by decide) (by decide)).2 (by decide),
   ((priority_fallback_order "question").2 (by decide) (by decide)).1 (by decide),
   ((priority_fallback_order "zzz").2 (by decide) (by decide)).2 (by decide)⟩

/-- C3 counterexample: the claim says empty title and description yield
priority MEDIUM, but auto_triage.py assigns its no-signal default LOW to the
empty input. -/
theorem empty_input_auto_priority_counterexample :
    (AutoTriage.triageTicket AutoTriage.slaTimes 0 none "" "").priority = "LOW" ∧
    (AutoTriage.triageTicket AutoTriage.slaTimes 0 none "" "").priority ≠ "MEDIUM" := by
  decide

/-- C3 amended: for empty title and empty description, ticket_triage.py
returns priority MEDIUM, category OTHER and confidence 0.5, while
auto_triage.py returns priority LOW, category General, SLA deadline now+72h
and escalation_level 0. -/
theorem empty_input_defaults (now : Nat) (assigned : Option String) :
    TicketTriage.triageTicket "" "" =
      { priority := TicketTriage.Priority.medium,
        category := TicketTriage.Category.other, confidence_score := 1/2 } ∧
    AutoTriage.triageTicket AutoTriage.slaTimes now assigned "" "" =
      { priority := "LOW", category := "General", sla_deadline := now + 72,
        escalation_level := 0, assigned_to := assigned, auto_triaged := true } := by
  constructor
  · have hp : TicketTriage.determinePriority (pyLower ("" ++ " " ++ "")) = .medium := by
      decide
    have hc : TicketTriage.determineCategory (pyLower ("" ++ " " ++ "")) = .other := by
      decide
    have hconf : TicketTriage.calculateConfidence (pyLower ("" ++ " " ++ ""))
        .medium .other = 1/2 := by
      have h3 : (TicketTriage.priorityKeywords .medium).countP
          (fun kw => pyContains (pyLower ("" ++ " " ++ "")) kw) = 0 := by decide
      have h4 : ((TicketTriage.categoryKeywords.lookup TicketTriage.Category.other).getD
          []).countP (fun kw => pyContains (pyLower ("" ++ " " ++ "")) kw) = 0 := by
        decide
      simp only [TicketTriage.calculateConfidence, h3, h4]
      norm_num [pyMin, pyMax]
    simp only [TicketTriage.triageTicket]
    rw [hp, hc, hconf]
  · have hbody : AutoTriage.triageBody AutoTriage.slaTimes now assigned "" "" =
        Except.ok
          { priority := "LOW", category := "General", sla_deadline := now + 72,
            escalation_level := 0, assigned_to := assigned, auto_triaged := true } := by
      simp only [AutoTriage.triageBody,
        show AutoTriage.determinePriority (pyLower "" ++ " " ++ pyLower "") = "LOW"
          from by decide,
        show AutoTriage.determineCategory (pyLower "" ++ " " ++ pyLower "") = "General"
          from by decide,
        show AutoTriage.determineEscalation (pyLower "" ++ " " ++ pyLower "") "LOW" = 0
          from by decide,
        show List.lookup "LOW" AutoTriage.slaTimes = some 72 from by decide]
    simp only [AutoTriage.triageTicket, hbody]


/-- `_calculate_confidence` decomposed: base 0.5 plus a priority contribution
in [0, 0.3] plus a category contribution in [0, 0.2], clamped by
`min(1.0, max(0.0, ...))`. -/
theorem calculateConfidence_eq (content : String) (priority : TicketTriage.Priority)
    (category : TicketTriage.Category) :
    ∃ pc cc : ℚ, 0 ≤ pc ∧ pc ≤ 3/10 ∧ 0 ≤ cc ∧ cc ≤ 1/5 ∧
      TicketTriage.calculateConfidence content priority category =
        pyMin 1 (pyMax 0 (1/2 + pc + cc)) := by
  simp only [TicketTriage.calculateConfidence]
  set pm := (TicketTriage.priorityKeywords priority).countP
    (fun kw => pyContains content kw) with hpm
  set cm := ((TicketTriage.categoryKeywords.lookup category).getD []).countP
    (fun kw => pyContains content kw) with hcm
  have hpmQ : (0 : ℚ) ≤ (pm : ℚ) * (1/10) := by positivity
  have hcmQ : (0 : ℚ) ≤ (cm : ℚ) * (1/20) := by positivity
  have hminP0 : 0 ≤ pyMin (3/10) ((pm : ℚ) * (1/10)) := by
    rw [pyMin]; split_ifs <;> linarith
  have hminP1 : pyMin (3/10) ((pm : ℚ) * (1/10)) ≤ 3/10 := by
    rw [pyMin]; split_ifs <;> linarith
  have hminC0 : 0 ≤ pyMin (1/5) ((cm : ℚ) * (1/20)) := by
    rw [pyMin]; split_ifs <;> linarith
  have hminC1 : pyMin (1/5) ((cm : ℚ) * (1/20)) ≤ 1/5 := by
    rw [pyMin]; split_ifs <;> linarith
  by_cases hp : 0 < pm <;> by_cases hc : 0 < cm
  · exact ⟨pyMin (3/10) ((pm : ℚ) * (1/10)), pyMin (1/5) ((cm : ℚ) * (1/20)),
      hminP0, hminP1, hminC0, hminC1, by rw [if_pos hp, if_pos hc, add_assoc]⟩
  · exact ⟨pyMin (3/10) ((pm : ℚ) * (1/10)), 0,
      hminP0, hminP1, le_refl 0, by norm_num, by rw [if_pos hp, if_neg hc, add_zero]⟩
  · exact ⟨0, pyMin (1/5) ((cm : ℚ) * (1/20)),
      le_refl 0, by norm_num, hminC0, hminC1, by rw [if_neg hp, if_pos hc, add_zero]⟩
  · exact ⟨0, 0, le_refl 0, by norm_num, le_refl 0, by norm_num,
      by rw [if_neg hp, if_neg hc, add_zero, add_zero]⟩

theorem calculateConfidence_bounds (content : String)
    (priority : TicketTriage.Priority) (category : TicketTriage.Category) :
    1/2 ≤ TicketTriage.calculateConfidence content priority category ∧
      TicketTriage.calculateConfidence content priority category ≤ 1 := by
  obtain ⟨pc, cc, h1, h2, h3, h4, heq⟩ := calculateConfidence_eq content priority category
  rw [heq, pyMin, pyMax]
  split_ifs <;> constructor <;> linarith

/-- C4: for every input the confidence score returned by ticket_triage.py is
the base 0.5 plus a priority-keyword contribution capped at 0.3 plus a
category-keyword contribution capped at 0.2, clamped to [0, 1]; hence for any
input, however many repeated keywords it contains, the confidence lies in
[0.0, 1.0] and is never below 0.5. -/
theorem confidence_always_bounded (title description : String) :
    1/2 ≤ (TicketTriage.triageTicket title description).confidence_score ∧
    (TicketTriage.triageTicket title description).confidence_score ≤ 1 ∧
    ∃ pc cc : ℚ, 0 ≤ pc ∧ pc ≤ 3/10 ∧ 0 ≤ cc ∧ cc ≤ 1/5 ∧
      (TicketTriage.triageTicket title description).confidence_score =
        pyMin 1 (pyMax 0 (1/2 + pc + cc)) := by
  have hb := calculateConfidence_bounds (pyLower (title ++ " " ++ description))
    (TicketTriage.determinePriority (pyLower (title ++ " " ++ description)))
    (TicketTriage.determineCategory (pyLower (title ++ " " ++ description)))
  have he := calculateConfidence_eq (pyLower (title ++ " " ++ description))
    (TicketTriage.determinePriority (pyLower (title ++ " " ++ description)))
    (TicketTriage.determineCategory (pyLower (title ++ " " ++ description)))
  simp only [TicketTriage.triageTicket]
  exact ⟨hb.1, hb.2, he⟩

/-- C5 counterexample: auto_triage.py does not tally matches across all
categories.  For "printer scanner network" the Hardware list scores 2 matches
and the Network list only 1, yet the function returns "Network" because
Network is declared first and has some match. -/
theorem auto_category_not_tally_counterexample :
    AutoTriage.determineCategory "printer scanner network" = "Network" ∧
    ((AutoTriage.categoryKeywords.lookup "Hardware").getD []).countP
      (fun kw => pyContains (pyLower "printer scanner network") kw) = 2 ∧
    ((AutoTriage.categoryKeywords.lookup "Network").getD []).countP
      (fun kw => pyContains (pyLower "printer scanner network") kw) = 1 := by
  decide

/-- C5 amended: ticket_triage.py selects the category by full tally — highest
count wins, ties broken by declaration order (first declared wins), OTHER when
every category scores zero — while auto_triage.py instead returns the first
declared non-General category with any keyword match (General when none).
On "network vpn dns" both return their network category. -/
theorem category_selection_rules (content : String) :
    TicketTriage.determineCategory content =
      TicketTriage.specCategorySelection content ∧
    AutoTriage.determineCategory content =
      AutoTriage.specFirstMatchCategory content ∧
    TicketTriage.determineCategory "network vpn dns" =
      TicketTriage.Category.network_issue ∧
    AutoTriage.determineCategory "network vpn dns" = "Network" :=
  ⟨ticket_determineCategory_eq_spec content,
   auto_determineCategory_eq_spec content,
   by decide, by decide⟩

/-- C6: escalation_level is 1 exactly when the lowercased content contains an
escalation keyword or the resolved priority is CRITICAL, and 0 otherwise. -/
theorem escalation_level_iff (content priority : String) :
    (AutoTriage.determineEscalation content priority = 1 ↔
      ((∃ kw ∈ AutoTriage.escalationKeywords,
          pyContains (pyLower content) kw = true) ∨ priority = "CRITICAL")) ∧
    (AutoTriage.determineEscalation content priority = 0 ↔
      ¬((∃ kw ∈ AutoTriage.escalationKeywords,
          pyContains (pyLower content) kw = true) ∨ priority = "CRITICAL")) := by
  have hform : AutoTriage.determineEscalation content priority =
      if (AutoTriage.escalationKeywords.any (fun kw => pyContains (pyLower content) kw)
          || priority == "CRITICAL") then 1 else 0 := by
    simp only [AutoTriage.determineEscalation]
    by_cases h1 : AutoTriage.escalationKeywords.any
        (fun kw => pyContains (pyLower content) kw) = true
    · simp [h1]
    · by_cases h2 : (priority == "CRITICAL") = true
      · simp [h1, h2]
      · by_cases h3 : (priority == "HIGH") = true <;> simp [h1, h2, h3]
  rw [hform]
  by_cases hcond : (AutoTriage.escalationKeywords.any
      (fun kw => pyContains (pyLower content) kw) || priority == "CRITICAL") = true
  · have hP : (∃ kw ∈ AutoTriage.escalationKeywords,
        pyContains (pyLower content) kw = true) ∨ priority = "CRITICAL" := by
      rcases Bool.or_eq_true_iff.mp hcond with h | h
      · exact Or.inl (List.any_eq_true.mp h)
      · exact Or.inr (beq_iff_eq.mp h)
    rw [if_pos hcond]
    exact ⟨⟨fun _ => hP, fun _ => rfl⟩,
           ⟨fun h => (Nat.one_ne_zero h).elim, fun hnp => (hnp hP).elim⟩⟩
  · have hnP : ¬((∃ kw ∈ AutoTriage.escalationKeywords,
        pyContains (pyLower content) kw = true) ∨ priority = "CRITICAL") := by
      intro hP
      apply hcond
      rcases hP with h | h
      · exact Bool.or_eq_true_iff.mpr (Or.inl (List.any_eq_true.mpr h))
      · exact Bool.or_eq_true_iff.mpr (Or.inr (beq_iff_eq.mpr h))
    rw [if_neg hcond]
    exact ⟨⟨fun h => (Nat.zero_ne_one h).elim, fun hp => (hnP hp).elim⟩,
           ⟨fun _ => hnP, fun _ => rfl⟩⟩

/-- C7 counterexample: the claimed scenario presupposes an input containing
"urgent" that matches no CRITICAL keyword, but "urgent" is itself a CRITICAL
keyword in both keyword tables; "urgent slow" therefore resolves to CRITICAL,
not HIGH. -/
theorem urgent_scenario_counterexample :
    AutoTriage.determinePriority "urgent slow" = "CRITICAL" ∧
    pyContains (pyLower "urgent slow") "urgent" = true ∧
    pyContains (pyLower "urgent slow") "slow" = true ∧
    "urgent" ∈ (AutoTriage.priorityKeywords.lookup "CRITICAL").getD [] ∧
    "urgent" ∈ TicketTriage.priorityKeywords TicketTriage.Priority.critical ∧
    TicketTriage.determinePriority "urgent slow" = TicketTriage.Priority.critical := by
  decide

/-- C7 amended: "urgent" cannot occur without a CRITICAL match, so the
escalation keyword of the scenario must be one outside the priority tables,
e.g. "asap": any input containing the escalation keyword "asap" and the HIGH
keyword "slow" that matches no CRITICAL keyword gets priority HIGH with
escalation_level 1. -/
theorem escalation_keyword_with_high_priority (content : String) :
    pyContains (pyLower content) "asap" = true →
    pyContains (pyLower content) "slow" = true →
    AutoTriage.matchesPriority (pyLower content) "CRITICAL" = false →
    AutoTriage.determinePriority content = "HIGH" ∧
    AutoTriage.determineEscalation content "HIGH" = 1 := by
  intro hasap hslow hcrit
  have hhigh : AutoTriage.matchesPriority (pyLower content) "HIGH" = true := by
    simp only [AutoTriage.matchesPriority, List.any_eq_true]
    exact ⟨"slow", by decide, hslow⟩
  have hany : AutoTriage.escalationKeywords.any
      (fun kw => pyContains (pyLower content) kw) = true :=
    List.any_eq_true.mpr ⟨"asap", by decide, hasap⟩
  constructor
  · simp [AutoTriage.determinePriority, hcrit, hhigh]
  · simp [AutoTriage.determineEscalation, hany]

/-- Witness for `escalation_keyword_with_high_priority` at "slow asap". -/
theorem escalation_keyword_with_high_priority_witness :
    AutoTriage.determinePriority "slow asap" = "HIGH" ∧
    AutoTriage.determineEscalation "slow asap" "HIGH" = 1 :=
  escalation_keyword_with_high_priority "slow asap" (by decide) (by decide) (by decide)

/-- C8: if the scoring body raises (`Except.error`, e.g. on a malformed SLA
configuration table), `triage_ticket` catches it and returns the documented
default result — MEDIUM priority, General category, now+24h SLA, escalation 0,
unassigned — instead of propagating the error to the caller. -/
theorem triage_exception_fails_safe (sla : List (String × Nat)) (now : Nat)
    (assigned : Option String) (title description : String) (e : Unit) :
    AutoTriage.triageBody sla now assigned title description = Except.error e →
    AutoTriage.triageTicket sla now assigned title description =
      { priority := "MEDIUM", category := "General", sla_deadline := now + 24,
        escalation_level := 0, assigned_to := none, auto_triaged := false } := by
  intro h
  simp only [AutoTriage.triageTicket, h]

/-- Witness for `triage_exception_fails_safe`: with an empty (malformed) SLA
table the body fails on the empty input and the wrapper returns the default. -/
theorem triage_exception_fails_safe_witness :
    AutoTriage.triageBody [] 0 none "" "" = Except.error () ∧
    AutoTriage.triageTicket [] 0 none "" "" =
      { priority := "MEDIUM", category := "General", sla_deadline := 0 + 24,
        escalation_level := 0, assigned_to := none, auto_triaged := false } :=
  ⟨rfl, triage_exception_fails_safe [] 0 none "" "" () rfl⟩

/-- C9: classification is deterministic.  In auto_triage.py the priority,
category and escalation level do not depend on the call time or the
database-assignment outcome, and the SLA deadline is exactly the supplied
"now" plus the table hours of the resolved priority; in simple_ml_service.py
the category, priority, both confidences, the urgency score and the combined
ML confidence do not depend on the random resolution-time jitter. -/
theorem classify_deterministic (title description : String)
    (now1 now2 : Nat) (a1 a2 : Option String) (r1 r2 : ℚ) :
    ((AutoTriage.triageTicket AutoTriage.slaTimes now1 a1 title description).priority =
      (AutoTriage.triageTicket AutoTriage.slaTimes now2 a2 title description).priority) ∧
    ((AutoTriage.triageTicket AutoTriage.slaTimes now1 a1 title description).category =
      (AutoTriage.triageTicket AutoTriage.slaTimes now2 a2 title description).category) ∧
    ((AutoTriage.triageTicket AutoTriage.slaTimes now1 a1 title description).escalation_level =
      (AutoTriage.triageTicket AutoTriage.slaTimes now2 a2 title description).escalation_level) ∧
    (∃ hrs : Nat,
      List.lookup
          ((AutoTriage.triageTicket AutoTriage.slaTimes now1 a1 title description).priority)
          AutoTriage.slaTimes = some hrs ∧
      (AutoTriage.triageTicket AutoTriage.slaTimes now1 a1 title description).sla_deadline =
        now1 + hrs ∧
      (AutoTriage.triageTicket AutoTriage.slaTimes now2 a2 title description).sla_deadline =
        now2 + hrs) ∧
    ((SimpleML.classifyTicket title description r1).category =
      (SimpleML.classifyTicket title description r2).category) ∧
    ((SimpleML.classifyTicket title description r1).category_confidence =
      (SimpleML.classifyTicket title description r2).category_confidence) ∧
    ((SimpleML.classifyTicket title description r1).priority =
      (SimpleML.classifyTicket title description r2).priority) ∧
    ((SimpleML.classifyTicket title description r1).priority_confidence =
      (SimpleML.classifyTicket title description r2).priority_confidence) ∧
    ((SimpleML.classifyTicket title description r1).urgency_score =
      (SimpleML.classifyTicket title description r2).urgency_score) ∧
    ((SimpleML.classifyTicket title description r1).ml_confidence =
      (SimpleML.classifyTicket title description r2).ml_confidence) := by
  obtain ⟨h1, hl1, he1⟩ := auto_triage_eval now1 a1 title description
  obtain ⟨h2, hl2, he2⟩ := auto_triage_eval now2 a2 title description
  have hsame : h1 = h2 := by
    rw [hl1] at hl2
    exact Option.some.inj hl2
  subst hsame
  refine ⟨?_, ?_, ?_, ⟨h1, ?_, ?_, ?_⟩, rfl, rfl, rfl, rfl, rfl, rfl⟩
  · simp only [he1, he2]
  · simp only [he1, he2]
  · simp only [he1, he2]
  · simp only [he1]
    exact hl1
  · simp only [he1]
  · simp only [he2]

/-- C10: in simple_ml_service.py an all-zero priority score table resolves to
the first-declared key of the priority keyword dictionary: every input whose
combined lowercased text matches no priority keyword at all is classified
"critical" (not "medium") with priority confidence 0.3. -/
theorem simple_ml_no_keyword_ties_to_critical (title description : String) (r : ℚ) :
    (∀ pr ∈ SimpleML.priorityKeywords, ∀ kw ∈ pr.2,
      pyContains (pyLower (title ++ " " ++ description)) kw = false) →
    (SimpleML.classifyTicket title description r).priority = "critical" ∧
    (SimpleML.classifyTicket title description r).priority_confidence = 3/10 := by
  intro h
  have hz : ∀ pr ∈ SimpleML.priorityKeywords,
      pr.2.countP (fun kw => pyContains (pyLower (title ++ " " ++ description)) kw) = 0 := by
    intro pr hpr
    rw [List.countP_eq_zero]
    intro kw hkw
    simp [h pr hpr kw hkw]
  have hmap : SimpleML.priorityKeywords.map
      (fun p => (p.1, p.2.countP
        (fun kw => pyContains (pyLower (title ++ " " ++ description)) kw))) =
      [("critical", (0 : Nat)), ("high", 0), ("medium", 0), ("low", 0)] := by
    rw [List.map_congr_left (g := fun p : String × List String => (p.1, (0 : Nat)))
      (fun a ha => by rw [Prod.mk.injEq]; exact ⟨rfl, hz a ha⟩)]
    rfl
  have hpp : (pyMaxByVal [("critical", (0 : Nat)), ("high", 0), ("medium", 0),
      ("low", 0)]).elim "medium" (fun p => p.1) = "critical" := by decide
  have hlk : List.lookup "critical" [("critical", (0 : Nat)), ("high", 0),
      ("medium", 0), ("low", 0)] = some 0 := by decide
  constructor
  · simp only [SimpleML.classifyTicket, hmap, hpp]
  · simp only [SimpleML.classifyTicket, hmap, hpp, hlk]
    norm_num [pyMin, pyMax, SimpleML.pyRound]

/-- Witness for `simple_ml_no_keyword_ties_to_critical` at the empty input. -/
theorem simple_ml_no_keyword_ties_to_critical_witness :
    (SimpleML.classifyTicket "" "" 0).priority = "critical" ∧
    (SimpleML.classifyTicket "" "" 0).priority_confidence = 3/10 :=
  simple_ml_no_keyword_ties_to_critical "" "" 0 (by decide)
